import Mathlib

/-!
Verification development for the TaskFlow gRPC task-tracking service.

The Go sources are shallowly embedded: pure functions become Lean functions,
the SQLite tables become explicit list-valued state, the handler methods
become state-passing functions, and `error` returns become `Except`.
Timestamps are modelled as `Nat` ticks supplied by the caller (the Go code
reads `time.Now()`); machine `int32` values are modelled as `Int`.
-/

namespace TaskFlow

/-! ## Model layer (internal/model/task.go) -/

/-- TaskStatus constants (model.TaskStatusUnspecified .. model.TaskStatusTimeout). -/
def statusUnspecified : Int := 0

/-- model.TaskStatusPending. -/
def statusPending : Int := 1

/-- model.TaskStatusRunning. -/
def statusRunning : Int := 2

/-- model.TaskStatusSucceeded. -/
def statusSucceeded : Int := 3

/-- model.TaskStatusFailed. -/
def statusFailed : Int := 4

/-- model.TaskStatusCancelled. -/
def statusCancelled : Int := 5

/-- model.TaskStatusTimeout. -/
def statusTimeout : Int := 6

/-- TaskStatus.String() from internal/model/task.go. -/
def statusString (s : Int) : String :=
  if s = statusPending then "PENDING"
  else if s = statusRunning then "RUNNING"
  else if s = statusSucceeded then "SUCCEEDED"
  else if s = statusFailed then "FAILED"
  else if s = statusCancelled then "CANCELLED"
  else if s = statusTimeout then "TIMEOUT"
  else "UNSPECIFIED"

/-- model.Task (internal/model/task.go).  The `Events` field of the Go struct
is a query-time attachment of the `task_events` table, which the embedding
keeps as a separate table inside `DB`; timestamps are `Nat` ticks and the
Go `*time.Time` fields become `Option Nat`. -/
structure Task where
  id : String
  name : String
  description : String
  status : Int
  priority : Int
  taskType : String
  inputParams : List (String × String)
  outputResult : List (String × String)
  dependencies : List String
  retryCount : Int
  maxRetries : Int
  errorMessage : String
  createdAt : Nat
  updatedAt : Nat
  startedAt : Option Nat
  completedAt : Option Nat
  createdBy : String
deriving DecidableEq, Repr

/-- model.TaskEvent (internal/model/task.go). -/
structure TaskEvent where
  id : String
  taskId : String
  fromStatus : Int
  toStatus : Int
  message : String
  timestamp : Nat
  operator : String
deriving DecidableEq, Repr

/-- model.NewTask: fresh task with status PENDING, createdAt = updatedAt = now,
and Go zero values for the remaining fields (the caller assigns `id` after). -/
def newTask (name description : String) (priority : Int) (taskType : String)
    (inputParams : List (String × String)) (dependencies : List String)
    (maxRetries : Int) (createdBy : String) (now : Nat) : Task :=
  { id := ""
    name := name
    description := description
    status := statusPending
    priority := priority
    taskType := taskType
    inputParams := inputParams
    outputResult := []
    dependencies := dependencies
    retryCount := 0
    maxRetries := maxRetries
    errorMessage := ""
    createdAt := now
    updatedAt := now
    startedAt := none
    completedAt := none
    createdBy := createdBy }

/-- Task.IsTerminal (internal/model/task.go). -/
def Task.isTerminal (t : Task) : Bool :=
  t.status == statusSucceeded || t.status == statusFailed ||
    t.status == statusCancelled || t.status == statusTimeout

/-- Task.MarkRunning (internal/model/task.go): sets status RUNNING and
populates startedAt and updatedAt. -/
def Task.markRunning (t : Task) (now : Nat) : Task :=
  { t with status := statusRunning, startedAt := some now, updatedAt := now }

/-- Task.CanRetry (internal/model/task.go). -/
def Task.canRetry (t : Task) : Bool :=
  t.status == statusFailed && t.retryCount < t.maxRetries

/-! ## State machine (isValidStatusTransition, internal/handler) -/

/-- isValidStatusTransition from the handler package: PENDING may go to
RUNNING or CANCELLED, RUNNING may go to SUCCEEDED, FAILED, TIMEOUT or
CANCELLED, and nothing else transitions. -/
def isValidStatusTransition (fromS toS : Int) : Bool :=
  if fromS == statusPending then
    toS == statusRunning || toS == statusCancelled
  else if fromS == statusRunning then
    toS == statusSucceeded || toS == statusFailed ||
      toS == statusTimeout || toS == statusCancelled
  else
    false

/-! ## Repository layer (internal/repository, src/unnamed/part_003) -/

/-- Database state: the `tasks` and `task_events` tables. -/
structure DB where
  tasks : List Task
  taskEvents : List TaskEvent
deriving DecidableEq, Repr

/-- GetByID's row lookup (`SELECT ... FROM tasks WHERE id = ?`); the Go
function additionally attaches the event log, which lives in
`DB.taskEvents` here. -/
def findTask (db : DB) (id : String) : Option Task :=
  db.tasks.find? (fun t => t.id == id)

/-- GetEventsByTaskID (`SELECT ... FROM task_events WHERE task_id = ?
ORDER BY timestamp ASC`).  The embedding keeps insertion order, which agrees
with timestamp order for the monotone clock the handlers use. -/
def eventsOf (db : DB) (id : String) : List TaskEvent :=
  db.taskEvents.filter (fun e => e.taskId == id)

/-- TaskRepository.Create: plain INSERT; the tasks table's PRIMARY KEY makes
it fail on an id collision. -/
def repoCreate (db : DB) (t : Task) : Except String DB :=
  if db.tasks.any (fun u => u.id == t.id) then
    .error "UNIQUE constraint failed: tasks.id"
  else
    .ok { db with tasks := db.tasks ++ [t] }

/-- TaskRepository.Update: full-row replace by id
(`UPDATE tasks SET ... WHERE id = ?`). -/
def repoUpdate (db : DB) (t : Task) : DB :=
  { db with tasks := db.tasks.map (fun u => if u.id == t.id then t else u) }

/-- TaskRepository.UpdateStatusWithEvent: inside one transaction, the
compare-and-set `UPDATE tasks SET status = ?, updated_at = ? WHERE id = ?
AND status = ?`, an abort with "task not found or status mismatch" when no
row is affected, then the insertion of one TaskEvent (id = taskID plus the
nanosecond clock, here the tick).  `Except.error` is the rolled-back
transaction: no new state is produced. -/
def updateStatusWithEvent (db : DB) (taskID : String) (fromS toS : Int)
    (operator message : String) (now : Nat) : Except String DB :=
  let rowsAffected :=
    (db.tasks.filter (fun t => t.id == taskID && t.status == fromS)).length
  if rowsAffected = 0 then
    .error "task not found or status mismatch"
  else
    let tasks2 := db.tasks.map (fun t =>
      if t.id == taskID && t.status == fromS then
        { t with status := toS, updatedAt := now }
      else t)
    let ev : TaskEvent :=
      { id := taskID ++ "_" ++ toString now
        taskId := taskID
        fromStatus := fromS
        toStatus := toS
        message := message
        timestamp := now
        operator := operator }
    .ok { tasks := tasks2, taskEvents := db.taskEvents ++ [ev] }

/-- SQLite.ExecTx's effect as seen by the caller: a failed transaction is
rolled back, so the caller continues with the original database. -/
def applyTx (db : DB) (r : Except String DB) : DB :=
  match r with
  | .error _ => db
  | .ok db2 => db2

/-! ## Filtered listing (TaskRepository.ListByFilter) -/

/-- repository.TaskFilter. -/
structure TaskFilter where
  status : Option Int
  priority : Option Int
  taskType : String
  createdBy : String
  keyword : String
  pageSize : Int
  pageIndex : Int
deriving DecidableEq, Repr

/-- SQL `LIKE '%needle%'` containment test. -/
def strContains (hay needle : String) : Bool :=
  hay.toList.tails.any (fun suffx => needle.toList.isPrefixOf suffx)

/-- The WHERE clause built by ListByFilter: equality on status, priority,
task_type and created_by when present, and keyword LIKE over name and
description. -/
def matchesFilter (f : TaskFilter) (t : Task) : Bool :=
  (match f.status with
   | some s => t.status == s
   | none => true) &&
  (match f.priority with
   | some p => t.priority == p
   | none => true) &&
  (f.taskType == "" || t.taskType == f.taskType) &&
  (f.createdBy == "" || t.createdBy == f.createdBy) &&
  (f.keyword == "" || strContains t.name f.keyword || strContains t.description f.keyword)

/-- ORDER BY priority DESC, created_at DESC: `a` may come no later than `b`. -/
def orderKeyGE (a b : Task) : Bool :=
  b.priority < a.priority || (a.priority == b.priority && decide (b.createdAt ≤ a.createdAt))

/-- Insertion step of the ordering. -/
def insertTask (t : Task) : List Task → List Task
  | [] => [t]
  | u :: rest => if orderKeyGE t u then t :: u :: rest else u :: insertTask t rest

/-- The ordered result set (insertion sort by priority DESC, created_at DESC). -/
def sortTasks : List Task → List Task
  | [] => []
  | t :: rest => insertTask t (sortTasks rest)

/-- TaskRepository.ListByFilter: count under the WHERE clause, re-default
PageSize when ≤ 0 and clamp PageIndex to ≥ 0, compute
`offset = PageIndex * PageSize`, and return the page
`LIMIT PageSize OFFSET offset` of the ordered rows together with the total. -/
def listByFilter (db : DB) (f : TaskFilter) : List Task × Int :=
  let rows := db.tasks.filter (matchesFilter f)
  let total : Int := rows.length
  let pageSize := if f.pageSize ≤ 0 then 20 else f.pageSize
  let pageIndex := if f.pageIndex < 0 then 0 else f.pageIndex
  let offset := pageIndex * pageSize
  (((sortTasks rows).drop offset.toNat).take pageSize.toNat, total)

/-! ## Handler layer (internal/handler) -/

/-- pb.CreateTaskRequest. -/
structure CreateTaskRequest where
  name : String
  description : String
  priority : Int
  taskType : String
  inputParams : List (String × String)
  dependencies : List String
  maxRetries : Int
  createdBy : String
deriving DecidableEq, Repr

/-- pb.UpdateTaskRequest.  `outputResult = none` is the nil map. -/
structure UpdateTaskRequest where
  id : String
  status : Int
  outputResult : Option (List (String × String))
  errorMessage : String
  retryCount : Int
deriving DecidableEq, Repr

/-- pb.ListTasksRequest. -/
structure ListTasksRequest where
  page : Int
  pageSize : Int
  keyword : String
  taskType : String
  statusFilter : List Int
  priority : Int
deriving DecidableEq, Repr

/-- pb.ListTasksResponse. -/
structure ListTasksResponse where
  tasks : List Task
  total : Int
  page : Int
  pageSize : Int
deriving DecidableEq, Repr

/-- pb.TaskChangeEvent.  The snapshot field carries the model task; the
handler's toPBTask conversion is field-for-field and is elided. -/
structure TaskChangeEvent where
  taskId : String
  task : Task
  fromStatus : Int
  toStatus : Int
  changedAt : Nat
  changeType : String
deriving DecidableEq, Repr

/-- errorcode.TaskError: numeric code (internal/error) and message. -/
structure TaskError where
  code : Int
  msg : String
deriving DecidableEq, Repr

/-- errorcode.ErrCodeInvalidParam. -/
def errCodeInvalidParam : Int := 1001

/-- errorcode.ErrCodeInvalidState. -/
def errCodeInvalidState : Int := 1006

/-- errorcode.ErrCodeTaskNotFound. -/
def errCodeTaskNotFound : Int := 2000

/-- errorcode.ErrCodeDBError. -/
def errCodeDBError : Int := 3000

/-- Handler state: the database plus the history of change events the
handler has pushed into its taskUpdateCh pipeline (`published` records them
in publish order; the sequential model assumes the notifier goroutine keeps
draining, the bounded-buffer behaviour of the channel itself is modelled
separately below). -/
structure ServerState where
  db : DB
  published : List TaskChangeEvent
deriving DecidableEq, Repr

/-- The model task CreateTask builds: model.NewTask plus the assigned
uuid. -/
def createdTask (req : CreateTaskRequest) (newId : String) (now : Nat) : Task :=
  { newTask req.name req.description req.priority req.taskType
      req.inputParams req.dependencies req.maxRetries req.createdBy now with
    id := newId }

/-- TaskHandler.CreateTask: reject an empty name with InvalidParam
"name is required", build the model task, assign the fresh uuid, insert it
(DBError on failure) and return it.  It does not publish any change
event. -/
def createTask (s : ServerState) (req : CreateTaskRequest) (newId : String)
    (now : Nat) : Except TaskError Task × ServerState :=
  if req.name = "" then
    (.error ⟨errCodeInvalidParam, "name is required"⟩, s)
  else
    let task := createdTask req newId now
    match repoCreate s.db task with
    | .error e => (.error ⟨errCodeDBError, e⟩, s)
    | .ok db2 => (.ok task, { s with db := db2 })

/-- The status block of TaskHandler.UpdateTask (`if req.Status != 0`):
skip when no status was requested, reject an illegal transition with
InvalidState naming the source and target statuses, otherwise run the
atomic UpdateStatusWithEvent and carry the task with its new status. -/
def updateTaskStatusStep (db : DB) (req : UpdateTaskRequest) (task0 : Task)
    (now : Nat) : Except TaskError (Task × DB) :=
  if req.status = 0 then .ok (task0, db)
  else if isValidStatusTransition task0.status req.status then
    match updateStatusWithEvent db req.id task0.status req.status
        "system" "status updated" now with
    | .error e => .error ⟨errCodeDBError, e⟩
    | .ok db2 => .ok ({ task0 with status := req.status }, db2)
  else
    .error ⟨errCodeInvalidState,
      "invalid status transition from " ++ statusString task0.status ++
        " to " ++ statusString req.status⟩

/-- The field block of TaskHandler.UpdateTask: overwrite output_result when
the request carries a non-nil map, error_message when non-empty,
retry_count when non-zero, and always refresh updated_at. -/
def applyFieldUpdates (req : UpdateTaskRequest) (task1 : Task) (now : Nat) : Task :=
  { task1 with
    outputResult :=
      (match req.outputResult with
       | some m => m
       | none => task1.outputResult)
    errorMessage :=
      (if req.errorMessage ≠ "" then req.errorMessage else task1.errorMessage)
    retryCount :=
      (if req.retryCount ≠ 0 then req.retryCount else task1.retryCount)
    updatedAt := now }

/-- TaskHandler.UpdateTask: validate the id, fetch the task, validate and
apply a requested status change through UpdateStatusWithEvent, then apply
the output_result/error_message/retry_count fields and updated_at and save
the full row with repository Update.  It does not publish any change
event. -/
def updateTask (s : ServerState) (req : UpdateTaskRequest) (now : Nat) :
    Except TaskError Task × ServerState :=
  if req.id = "" then
    (.error ⟨errCodeInvalidParam, "id is required"⟩, s)
  else
    match findTask s.db req.id with
    | none => (.error ⟨errCodeTaskNotFound, "task not found"⟩, s)
    | some task0 =>
      match updateTaskStatusStep s.db req task0 now with
      | .error e => (.error e, s)
      | .ok (task1, db1) =>
        let task2 := applyFieldUpdates req task1 now
        (.ok task2, { s with db := repoUpdate db1 task2 })

/-- The filter TaskHandler.ListTasks hands to ListByFilter: first element of
status_filter when non-empty, priority when non-zero, keyword and task_type
verbatim, no created_by. -/
def buildFilter (req : ListTasksRequest) (pageSize offset : Int) : TaskFilter :=
  { status :=
      (match req.statusFilter with
       | [] => none
       | s :: _ => some s)
    priority := if req.priority ≠ 0 then some req.priority else none
    taskType := req.taskType
    createdBy := ""
    keyword := req.keyword
    pageSize := pageSize
    pageIndex := offset }

/-- TaskHandler.ListTasks: replace a page_size outside 1..100 by 20, clamp
the page index to ≥ 0, compute `offset = pageIndex * pageSize`, pass that
offset as the repository filter's PageIndex, and echo the raw request
page/page_size in the response. -/
def listTasks (db : DB) (req : ListTasksRequest) : ListTasksResponse :=
  let pageSize := if req.pageSize ≤ 0 ∨ req.pageSize > 100 then 20 else req.pageSize
  let pageIndex := if req.page < 0 then 0 else req.page
  let offset := pageIndex * pageSize
  let res := listByFilter db (buildFilter req pageSize offset)
  { tasks := res.1, total := res.2, page := req.page, pageSize := req.pageSize }

/-- pb.BatchCreateTasksResponse; a `none` entry is the nil placeholder kept
aligned with the errors slice. -/
structure BatchCreateTasksResponse where
  tasks : List (Option Task)
  successCount : Int
  failedCount : Int
  errors : List String
deriving DecidableEq, Repr

/-- The model task a batch-create iteration builds (model.NewTask plus the
assigned uuid; the batch loop's clock tick is elided as 0). -/
def batchTask (req : CreateTaskRequest) (id : String) : Task :=
  { newTask req.name req.description req.priority req.taskType
      req.inputParams req.dependencies req.maxRetries req.createdBy 0 with
    id := id }

/-- The change event broadcastTaskChange is handed on a successful batch
create: change_type "created", UNSPECIFIED→PENDING. -/
def mkCreatedEvent (task : Task) : TaskChangeEvent :=
  { taskId := task.id, task := task, fromStatus := statusUnspecified,
    toStatus := statusPending, changedAt := 0, changeType := "created" }

/-- Loop body of TaskHandler.BatchCreateTasks over the request stream: an
empty name appends a nil placeholder and "name is required"; a repository
failure appends a nil placeholder and its message; a successful create
broadcasts a "created" UNSPECIFIED→PENDING change event and appends the
task.  `ids` supplies the uuids, consumed only on the create attempts. -/
def batchCreateGo (s : ServerState) :
    List CreateTaskRequest → List String →
      List (Option Task) × List String × Int × Int × ServerState
  | [], _ => ([], [], 0, 0, s)
  | req :: rest, ids =>
    if req.name = "" then
      let r := batchCreateGo s rest ids
      (none :: r.1, "name is required" :: r.2.1, r.2.2.1, r.2.2.2.1 + 1, r.2.2.2.2)
    else
      let task := batchTask req (ids.headD "")
      match repoCreate s.db task with
      | .error e =>
        let r := batchCreateGo s rest ids.tail
        (none :: r.1, e :: r.2.1, r.2.2.1, r.2.2.2.1 + 1, r.2.2.2.2)
      | .ok db2 =>
        let s2 : ServerState :=
          { db := db2, published := s.published ++ [mkCreatedEvent task] }
        let r := batchCreateGo s2 rest ids.tail
        (some task :: r.1, r.2.1, r.2.2.1 + 1, r.2.2.2.1, r.2.2.2.2)

/-- TaskHandler.BatchCreateTasks: consume the stream, then reply once with
the aggregate counts, placeholders and error strings. -/
def batchCreateTasks (s : ServerState) (reqs : List CreateTaskRequest)
    (ids : List String) : BatchCreateTasksResponse × ServerState :=
  let r := batchCreateGo s reqs ids
  ({ tasks := r.1, successCount := r.2.2.1, failedCount := r.2.2.2.1,
     errors := r.2.1 }, r.2.2.2.2)

/-! ## Watcher registry and channels (WatchTask, notifyWatchers,
broadcastTaskChange) -/

/-- Capacity of each WatchTask subscriber channel
(`make(chan *pb.TaskChangeEvent, 10)`). -/
def subscriberCap : Nat := 10

/-- Capacity of the handler's taskUpdateCh pipeline
(`make(chan *pb.TaskChangeEvent, 100)` in NewTaskHandler). -/
def pipelineCap : Nat := 100

/-- A `select { case ch <- event: default: }` non-blocking enqueue: drop the
event when the buffer is at capacity. -/
def trySend (cap : Nat) (buf : List TaskChangeEvent) (e : TaskChangeEvent) :
    List TaskChangeEvent :=
  if buf.length < cap then buf ++ [e] else buf

/-- A plain `ch <- event` send: `none` when the channel is full, in which
case the sending goroutine blocks instead of proceeding. -/
def chanSendBlocking (cap : Nat) (buf : List TaskChangeEvent)
    (e : TaskChangeEvent) : Option (List TaskChangeEvent) :=
  if buf.length < cap then some (buf ++ [e]) else none

/-- TaskHandler.broadcastTaskChange pushes the event into taskUpdateCh with
a plain blocking send. -/
def broadcastTaskChange (pipeline : List TaskChangeEvent)
    (e : TaskChangeEvent) : Option (List TaskChangeEvent) :=
  chanSendBlocking pipelineCap pipeline e

/-- TaskHandler.notifyWatchers as seen by one registered subscriber buffer:
subscribers registered under the event's task id or under the global key ""
get a non-blocking trySend; buffers under any other key are untouched. -/
def deliverToSubscriber (key : String) (buf : List TaskChangeEvent)
    (e : TaskChangeEvent) : List TaskChangeEvent :=
  if key == e.taskId || key == "" then trySend subscriberCap buf e else buf

/-- TaskHandler.notifyWatchers over the whole registry (map from
subscription key to the registered buffers). -/
def notifyWatchers (watchers : List (String × List (List TaskChangeEvent)))
    (e : TaskChangeEvent) : List (String × List (List TaskChangeEvent)) :=
  watchers.map (fun kv => (kv.1, kv.2.map (fun buf => deliverToSubscriber kv.1 buf e)))

/-- pb.WatchTaskRequest. -/
structure WatchTaskRequest where
  taskIds : List String
  includeInitial : Bool
  statusFilter : List Int
deriving DecidableEq, Repr

/-- WatchTask's subscription-key selection: the id itself when exactly one
task id is given, the global key "" otherwise. -/
def watchKey (taskIds : List String) : String :=
  match taskIds with
  | [id] => id
  | _ => ""

/-- The drain loop's status filter: with a non-empty status_filter an event
passes only when its to_status appears in it; it never inspects the task
id. -/
def drainPass (statusFilter : List Int) (e : TaskChangeEvent) : Bool :=
  match statusFilter with
  | [] => true
  | _ => statusFilter.any (fun st => e.toStatus == st)

/-- The synthetic event WatchTask emits per fetched task when
include_initial is set: change_type "initial" and
from_status = to_status = current status. -/
def mkInitialEvent (t : Task) : TaskChangeEvent :=
  { taskId := t.id, task := t, fromStatus := t.status, toStatus := t.status,
    changedAt := t.updatedAt, changeType := "initial" }

/-- The tasks WatchTask fetches for the initial snapshot: GetByID per
requested id (silently skipping failures), or the top page of 50 of all
tasks when task_ids is empty. -/
def fetchInitialTasks (db : DB) (taskIds : List String) : List Task :=
  match taskIds with
  | [] => (listByFilter db { status := none, priority := none, taskType := "",
                             createdBy := "", keyword := "", pageSize := 50,
                             pageIndex := 0 }).1
  | _ => taskIds.filterMap (fun id => findTask db id)

/-- The initial-snapshot events WatchTask sends before entering its drain
loop; they are sent unconditionally, without consulting status_filter. -/
def watchInitialEvents (db : DB) (req : WatchTaskRequest) : List TaskChangeEvent :=
  if req.includeInitial then (fetchInitialTasks db req.taskIds).map mkInitialEvent
  else []

/-! ## Bidirectional update stream (TaskUpdates) -/

/-- pb.TaskUpdateRequest. -/
structure TaskUpdateRequest where
  requestId : String
  updateType : String
  create : Option CreateTaskRequest
  update : Option UpdateTaskRequest
deriving DecidableEq, Repr

/-- pb.TaskUpdateResponse. -/
structure TaskUpdateResponse where
  requestId : String
  success : Bool
  task : Option Task
  error : Option String
  changeEvent : Option TaskChangeEvent
deriving DecidableEq, Repr

/-- Processing of one command from the TaskUpdates receive channel: the
"create" and "update" arms run the unary handler and reply once, but only
when the corresponding payload is present (a nil payload falls through the
`if ... != nil` and sends nothing); any other update_type gets the
"unknown update type" failure reply. -/
def handleCommand (s : ServerState) (req : TaskUpdateRequest) (newId : String)
    (now : Nat) : List TaskUpdateResponse × ServerState :=
  if req.updateType = "create" then
    match req.create with
    | none => ([], s)
    | some c =>
      let r := createTask s c newId now
      match r.1 with
      | .ok t =>
        ([{ requestId := req.requestId, success := true, task := some t,
            error := none, changeEvent := none }], r.2)
      | .error e =>
        ([{ requestId := req.requestId, success := false, task := none,
            error := some e.msg, changeEvent := none }], r.2)
  else if req.updateType = "update" then
    match req.update with
    | none => ([], s)
    | some u =>
      let r := updateTask s u now
      match r.1 with
      | .ok t =>
        ([{ requestId := req.requestId, success := true, task := some t,
            error := none, changeEvent := none }], r.2)
      | .error e =>
        ([{ requestId := req.requestId, success := false, task := none,
            error := some e.msg, changeEvent := none }], r.2)
  else
    ([{ requestId := req.requestId, success := false, task := none,
        error := some "unknown update type", changeEvent := none }], s)

/-! ## Spec-side pagination, for the refinement comparison of claim C6 -/

/-- Modelled from the spec: the page the ListTasks contract promises, namely
the rows of the filtered, ordered result set starting at offset
`page * page_size` (zero-based page index), with page_size falling back to
20 outside [1, 100] and page clamped to ≥ 0. -/
def listTasksSpecTasks (db : DB) (req : ListTasksRequest) : List Task :=
  let pageSize := if req.pageSize ≤ 0 ∨ req.pageSize > 100 then 20 else req.pageSize
  let page := if req.page < 0 then 0 else req.page
  let rows := db.tasks.filter (matchesFilter (buildFilter req pageSize 0))
  ((sortTasks rows).drop (page * pageSize).toNat).take pageSize.toNat

/-! ## Reachability and the event-log invariant (claim C4) -/

/-- The event log of one task chains from `s` to `c`: each event's
from_status equals the status immediately before it (the previous event's
to_status, or `s` for the first event), every transition is legal, and the
last to_status is the current status `c`. -/
def eventChain : Int → List TaskEvent → Int → Bool
  | s, [], c => c == s
  | s, e :: rest, c =>
    e.fromStatus == s && isValidStatusTransition e.fromStatus e.toStatus &&
      eventChain e.toStatus rest c

/-- Every event of the log records a legal transition. -/
def pairwiseValid (evs : List TaskEvent) : Bool :=
  evs.all (fun e => isValidStatusTransition e.fromStatus e.toStatus)

/-- Consecutive events agree: each event's from_status is the previous
event's to_status. -/
def chained : List TaskEvent → Bool
  | [] => true
  | [_] => true
  | e1 :: e2 :: rest => e2.fromStatus == e1.toStatus && chained (e2 :: rest)

/-- One mutation of the server: a CreateTask or an UpdateTask call with
arbitrary request, fresh-id and clock arguments (failed calls leave the
state unchanged). -/
inductive Step : ServerState → ServerState → Prop where
  | create (req : CreateTaskRequest) (newId : String) (now : Nat)
      (s : ServerState) : Step s (createTask s req newId now).2
  | update (req : UpdateTaskRequest) (now : Nat) (s : ServerState) :
      Step s (updateTask s req now).2

/-- States reachable from the empty server by CreateTask and UpdateTask
sequences. -/
inductive Reachable : ServerState → Prop where
  | init : Reachable { db := { tasks := [], taskEvents := [] }, published := [] }
  | step {s s2 : ServerState} : Reachable s → Step s s2 → Reachable s2

/-- The inductive database invariant: task ids are unique (the primary
key), every event belongs to a stored task, and every task's event log
chains from PENDING to its current status. -/
def DBInv (db : DB) : Prop :=
  (db.tasks.map Task.id).Nodup ∧
  (∀ e ∈ db.taskEvents, ∃ t ∈ db.tasks, t.id = e.taskId) ∧
  (∀ t ∈ db.tasks, eventChain statusPending (eventsOf db t.id) t.status = true)

/-- The property claim C4 states, per stored task: the event log chains
from PENDING (so each from_status is the status immediately before the
transition), every logged transition is legal, and consecutive events
agree. -/
def LogInvariant (st : ServerState) : Prop :=
  ∀ t ∈ st.db.tasks,
    eventChain statusPending (eventsOf st.db t.id) t.status = true ∧
    pairwiseValid (eventsOf st.db t.id) = true ∧
    chained (eventsOf st.db t.id) = true

/-! ## Concrete data used by witnesses and counterexamples -/

/-- The empty server: no tasks, no events, nothing published. -/
def emptyServerState : ServerState :=
  { db := { tasks := [], taskEvents := [] }, published := [] }

/-- A well-formed create request (scenario 1 of the spec). -/
def demoCreateReq : CreateTaskRequest :=
  { name := "t1", description := "", priority := 2, taskType := "",
    inputParams := [], dependencies := [], maxRetries := 0, createdBy := "" }

/-- A sample change event used by the channel-level statements. -/
def demoChangeEvent : TaskChangeEvent :=
  { taskId := "c", task := newTask "t" "" 2 "" [] [] 0 "" 0,
    fromStatus := statusPending, toStatus := statusRunning,
    changedAt := 0, changeType := "updated" }

/-- A taskUpdateCh pipeline at its capacity of 100. -/
def fullPipeline : List TaskChangeEvent :=
  List.replicate pipelineCap demoChangeEvent

/-- Server state after one successful CreateTask (id "a", tick 0). -/
def demoStateAfterCreate : ServerState :=
  (createTask emptyServerState demoCreateReq "a" 0).2

/-- A legal PENDING→RUNNING update request for task "a". -/
def demoRunReq : UpdateTaskRequest :=
  { id := "a", status := 2, outputResult := none, errorMessage := "",
    retryCount := 0 }

/-- Server state after CreateTask (id "a") followed by the PENDING→RUNNING
UpdateTask. -/
def demoStateAfterRun : ServerState :=
  (updateTask demoStateAfterCreate demoRunReq 1).2

/-- A TaskUpdates command of type "create" whose create payload is nil. -/
def demoNilCreateCmd : TaskUpdateRequest :=
  { requestId := "r1", updateType := "create", create := none, update := none }

/-- A TaskUpdates command with an unrecognised update_type. -/
def demoUnknownCmd : TaskUpdateRequest :=
  { requestId := "r2", updateType := "unknown", create := none, update := none }

/-- A numbered task for the pagination scenario: priority 2 and descending
creation times so that the stored order is already the listing order. -/
def mkDemoTask (id : String) (created : Nat) : Task :=
  { newTask ("task" ++ id) "" 2 "" [] [] 0 "sys" created with id := id }

/-- Five tasks for the pagination counterexample. -/
def demoPageDB : DB :=
  { tasks := [mkDemoTask "1" 5, mkDemoTask "2" 4, mkDemoTask "3" 3,
              mkDemoTask "4" 2, mkDemoTask "5" 1],
    taskEvents := [] }

/-- Second page of size 2 (zero-based page index 1). -/
def demoPageReq : ListTasksRequest :=
  { page := 1, pageSize := 2, keyword := "", taskType := "",
    statusFilter := [], priority := 0 }

/-- A one-task database for the watch-initial scenario. -/
def demoWatchDB : DB :=
  { tasks := [{ newTask "t1" "" 2 "" [] [] 0 "sys" 0 with id := "a" }],
    taskEvents := [] }

/-- Watch request with include_initial and a status_filter that excludes the
stored task's PENDING status. -/
def demoWatchReq : WatchTaskRequest :=
  { taskIds := ["a"], includeInitial := true, statusFilter := [statusSucceeded] }

/-! ## Theorems for the claims -/

/-- Counterexample to claim C3 at a concrete input: the unary CreateTask on
the empty server succeeds, yet nothing is published to the event bus (no
"created" change event exists for any watcher to observe). -/
theorem c3_counterexample :
    (createTask emptyServerState demoCreateReq "a" 0).1.toOption =
      some { newTask "t1" "" 2 "" [] [] 0 "" 0 with id := "a" } ∧
    (createTask emptyServerState demoCreateReq "a" 0).2.published = [] := by
  constructor
  · decide
  · decide

/-- Helper: batchCreateGo appends to the published history exactly one
"created" change event per successfully created task (`mkCreatedEvent` of
that task, in stream order), and its success counter counts those tasks. -/
theorem batchCreateGo_published (reqs : List CreateTaskRequest) :
    ∀ (s : ServerState) (ids : List String),
      (batchCreateGo s reqs ids).2.2.2.2.published =
        s.published ++
          (((batchCreateGo s reqs ids).1.filterMap (fun o => o)).map
            mkCreatedEvent) ∧
      (batchCreateGo s reqs ids).2.2.1 =
        ((((batchCreateGo s reqs ids).1.filterMap (fun o => o)).length : Int)) := by
  induction reqs with
  | nil =>
    intro s ids
    exact ⟨by simp [batchCreateGo], by simp [batchCreateGo]⟩
  | cons req rest ih =>
    intro s ids
    by_cases hname : req.name = ""
    · obtain ⟨h1, h2⟩ := ih s ids
      constructor
      · simp only [batchCreateGo, if_pos hname, List.filterMap_cons]
        exact h1
      · simp only [batchCreateGo, if_pos hname, List.filterMap_cons]
        exact h2
    · cases hcr : repoCreate s.db (batchTask req (ids.headD "")) with
      | error e =>
        obtain ⟨h1, h2⟩ := ih s ids.tail
        constructor
        · simp only [batchCreateGo, if_neg hname, hcr, List.filterMap_cons]
          exact h1
        · simp only [batchCreateGo, if_neg hname, hcr, List.filterMap_cons]
          exact h2
      | ok db2 =>
        obtain ⟨h1, h2⟩ :=
          ih { db := db2,
               published := s.published ++ [mkCreatedEvent (batchTask req (ids.headD ""))] }
            ids.tail
        constructor
        · simp only [batchCreateGo, if_neg hname, hcr, List.filterMap_cons]
          rw [h1]
          simp
        · simp only [batchCreateGo, if_neg hname, hcr, List.filterMap_cons,
            List.length_cons]
          rw [h2]
          push_cast
          ring

/-- Claim C3 corrected: the unary CreateTask and UpdateTask handlers never
publish a change event (their published history is exactly the caller's);
only BatchCreateTasks publishes: its published history grows by exactly one
"created" change event (from_status UNSPECIFIED, to_status PENDING,
carrying the created task) per successfully created task, in stream order,
and success_count equals the number of those tasks. -/
theorem c3_publish_behavior :
    (∀ (s : ServerState) (req : CreateTaskRequest) (newId : String) (now : Nat),
      ((createTask s req newId now).2).published = s.published) ∧
    (∀ (s : ServerState) (req : UpdateTaskRequest) (now : Nat),
      ((updateTask s req now).2).published = s.published) ∧
    (∀ (s : ServerState) (reqs : List CreateTaskRequest) (ids : List String),
      ((batchCreateTasks s reqs ids).2.published =
        s.published ++
          (((batchCreateTasks s reqs ids).1.tasks.filterMap (fun o => o)).map
            mkCreatedEvent)) ∧
      ((batchCreateTasks s reqs ids).1.successCount =
        ((((batchCreateTasks s reqs ids).1.tasks.filterMap (fun o => o)).length :
          Int))) ∧
      (((batchCreateTasks s reqs ids).2.published.drop s.published.length).all
        (fun e => e.changeType == "created" &&
          e.fromStatus == statusUnspecified && e.toStatus == statusPending) = true)) := by
  refine ⟨?_, ?_, ?_⟩
  · intro s req newId now
    by_cases h : req.name = ""
    · simp [createTask, h]
    · simp only [createTask, if_neg h]
      split <;> rfl
  · intro s req now
    by_cases hid : req.id = ""
    · simp [updateTask, hid]
    · cases hfind : findTask s.db req.id with
      | none => simp [updateTask, hid, hfind]
      | some task0 =>
        cases hstep : updateTaskStatusStep s.db req task0 now with
        | error e => simp [updateTask, hid, hfind, hstep]
        | ok pr =>
          obtain ⟨task1, db1⟩ := pr
          simp [updateTask, hid, hfind, hstep]
  · intro s reqs ids
    obtain ⟨h1, h2⟩ := batchCreateGo_published reqs s ids
    have hb : (batchCreateTasks s reqs ids).2.published =
        s.published ++
          (((batchCreateTasks s reqs ids).1.tasks.filterMap (fun o => o)).map
            mkCreatedEvent) := by
      simpa [batchCreateTasks] using h1
    refine ⟨hb, ?_, ?_⟩
    · simpa [batchCreateTasks] using h2
    · rw [hb, List.drop_left]
      simp [List.all_map, Function.comp, mkCreatedEvent]

/-- Witness for C3: a one-request batch on the empty server publishes
exactly the one "created" UNSPECIFIED→PENDING event for the created task,
and counts one success. -/
theorem c3_publish_behavior_witness :
    (batchCreateTasks emptyServerState [demoCreateReq] ["b1"]).2.published =
      [mkCreatedEvent (batchTask demoCreateReq "b1")] ∧
    (batchCreateTasks emptyServerState [demoCreateReq] ["b1"]).1.successCount = 1 :=
  ⟨((c3_publish_behavior.2.2 emptyServerState [demoCreateReq] ["b1"]).1).trans
      (by decide),
   ((c3_publish_behavior.2.2 emptyServerState [demoCreateReq] ["b1"]).2.1).trans
      (by decide)⟩

/-- Claim C7: WatchTask registers under the per-task key when the request
carries exactly one task id, and under the global key "" when it carries
none or several; in the latter case a subscriber receives events for any
task id (the drain loop's filter looks only at to_status, never at the task
id). -/
theorem c7_watch_key_and_global_delivery :
    ∀ (taskIds : List String) (statusFilter : List Int) (e : TaskChangeEvent),
      (∀ id, taskIds = [id] → watchKey taskIds = id) ∧
      (taskIds.length ≠ 1 →
        watchKey taskIds = "" ∧
        deliverToSubscriber (watchKey taskIds) [] e = [e]) ∧
      (∀ e2 : TaskChangeEvent, e2.toStatus = e.toStatus →
        drainPass statusFilter e2 = drainPass statusFilter e) := by
  intro ids sf e
  refine ⟨?_, ?_, ?_⟩
  · intro id h
    subst h
    rfl
  · intro hlen
    have hk : watchKey ids = "" := by
      match ids with
      | [] => rfl
      | [x] => exact absurd rfl hlen
      | x :: y :: rest => rfl
    refine ⟨hk, ?_⟩
    rw [hk]
    simp [deliverToSubscriber, trySend, subscriberCap]
  · intro e2 h
    cases sf with
    | nil => rfl
    | cons a l => simp [drainPass, h]

/-- Witness for C7: a two-id watch registers globally and a change event for
an unrelated task reaches its (empty) buffer. -/
theorem c7_watch_key_and_global_delivery_witness :
    watchKey ["a", "b"] = "" ∧
    deliverToSubscriber (watchKey ["a", "b"]) [] demoChangeEvent = [demoChangeEvent] :=
  (c7_watch_key_and_global_delivery ["a", "b"] [] demoChangeEvent).2.1 (by decide)

/-- Counterexample to claim C8 at a concrete input: a command with
update_type "create" but a nil create payload receives zero replies, not
exactly one. -/
theorem c8_counterexample :
    (handleCommand emptyServerState demoNilCreateCmd "i" 0).1 = [] := by
  decide

/-- Claim C8 corrected: a "create" or "update" command is answered with
exactly one reply carrying its request_id when its payload is present, with
no reply at all when the payload is nil, and any other update_type gets one
failure reply with error "unknown update type". -/
theorem c8_one_reply_per_command (s : ServerState) (req : TaskUpdateRequest)
    (newId : String) (now : Nat) :
    (req.updateType = "create" → req.create = none →
      (handleCommand s req newId now).1 = []) ∧
    (req.updateType = "create" → ∀ c, req.create = some c →
      ∃ resp, (handleCommand s req newId now).1 = [resp] ∧
        resp.requestId = req.requestId) ∧
    (req.updateType = "update" → req.update = none →
      (handleCommand s req newId now).1 = []) ∧
    (req.updateType = "update" → ∀ u, req.update = some u →
      ∃ resp, (handleCommand s req newId now).1 = [resp] ∧
        resp.requestId = req.requestId) ∧
    (req.updateType ≠ "create" → req.updateType ≠ "update" →
      (handleCommand s req newId now).1 =
        [{ requestId := req.requestId, success := false, task := none,
           error := some "unknown update type", changeEvent := none }]) := by
  refine ⟨?_, ?_, ?_, ?_, ?_⟩
  · intro h1 h2
    simp [handleCommand, h1, h2]
  · intro h1 c h2
    cases hr : (createTask s c newId now).1 with
    | error e =>
      refine ⟨{ requestId := req.requestId, success := false, task := none,
                error := some e.msg, changeEvent := none }, ?_, rfl⟩
      simp [handleCommand, h1, h2, hr]
    | ok t =>
      refine ⟨{ requestId := req.requestId, success := true, task := some t,
                error := none, changeEvent := none }, ?_, rfl⟩
      simp [handleCommand, h1, h2, hr]
  · intro h1 h2
    by_cases hc : req.updateType = "create"
    · rw [hc] at h1
      simp at h1
    · simp [handleCommand, hc, h1, h2]
  · intro h1 u h2
    by_cases hc : req.updateType = "create"
    · rw [hc] at h1
      simp at h1
    · cases hr : (updateTask s u now).1 with
      | error e =>
        refine ⟨{ requestId := req.requestId, success := false, task := none,
                  error := some e.msg, changeEvent := none }, ?_, rfl⟩
        simp [handleCommand, hc, h1, h2, hr]
      | ok t =>
        refine ⟨{ requestId := req.requestId, success := true, task := some t,
                  error := none, changeEvent := none }, ?_, rfl⟩
        simp [handleCommand, hc, h1, h2, hr]
  · intro h1 h2
    simp [handleCommand, h1, h2]

/-- Witness for C8: the unknown-type arm evaluated on a concrete command. -/
theorem c8_one_reply_per_command_witness :
    (handleCommand emptyServerState demoUnknownCmd "i" 0).1 =
      [{ requestId := demoUnknownCmd.requestId, success := false, task := none,
         error := some "unknown update type", changeEvent := none }] :=
  (c8_one_reply_per_command emptyServerState demoUnknownCmd "i" 0).2.2.2.2
    (by decide) (by decide)

/-- Counterexample to claim C9 at a concrete input: with the taskUpdateCh
pipeline at its capacity of 100, broadcastTaskChange does not drop the
event and continue (which would return the unchanged pipeline); the plain
channel send blocks. -/
theorem c9_counterexample :
    broadcastTaskChange fullPipeline demoChangeEvent = none ∧
    ¬ broadcastTaskChange fullPipeline demoChangeEvent = some fullPipeline := by
  have h : broadcastTaskChange fullPipeline demoChangeEvent = none := by
    simp [broadcastTaskChange, chanSendBlocking, fullPipeline, pipelineCap]
  exact ⟨h, by simp [h]⟩

/-- Claim C9 corrected: the fan-out enqueue to each subscriber buffer is a
non-blocking attempt that appends when there is room and drops the event
when the buffer is full; the publish into the bounded pipeline channel,
however, is a plain send that blocks (yields no continue-after-drop result)
when the pipeline is full. -/
theorem c9_fanout_drops_publish_blocks :
    (∀ (buf : List TaskChangeEvent) (e : TaskChangeEvent),
      buf.length < subscriberCap → trySend subscriberCap buf e = buf ++ [e]) ∧
    (∀ (buf : List TaskChangeEvent) (e : TaskChangeEvent),
      subscriberCap ≤ buf.length → trySend subscriberCap buf e = buf) ∧
    (∀ (p : List TaskChangeEvent) (e : TaskChangeEvent),
      p.length < pipelineCap → broadcastTaskChange p e = some (p ++ [e])) ∧
    (∀ (p : List TaskChangeEvent) (e : TaskChangeEvent),
      pipelineCap ≤ p.length → broadcastTaskChange p e = none) := by
  refine ⟨?_, ?_, ?_, ?_⟩
  · intro buf e h
    simp [trySend, h]
  · intro buf e h
    simp [trySend, Nat.not_lt.mpr h]
  · intro p e h
    simp [broadcastTaskChange, chanSendBlocking, h]
  · intro p e h
    simp [broadcastTaskChange, chanSendBlocking, Nat.not_lt.mpr h]

/-- Witness for C9: a full subscriber buffer drops the event and the full
pipeline blocks, both evaluated at capacity-sized concrete buffers. -/
theorem c9_fanout_drops_publish_blocks_witness :
    trySend subscriberCap (List.replicate 10 demoChangeEvent) demoChangeEvent =
      List.replicate 10 demoChangeEvent ∧
    broadcastTaskChange fullPipeline demoChangeEvent = none :=
  ⟨(c9_fanout_drops_publish_blocks).2.1 (List.replicate 10 demoChangeEvent)
      demoChangeEvent (by simp [subscriberCap]),
   (c9_fanout_drops_publish_blocks).2.2.2 fullPipeline demoChangeEvent
      (by simp [fullPipeline, pipelineCap])⟩

/-- Claim C10: with include_initial set the synthetic "initial" events are
emitted without consulting status_filter — the emitted list does not depend
on the filter, every fetched task contributes its initial event, and in
particular a task whose event fails the drain filter is still sent. -/
theorem c10_initial_events_bypass_status_filter (db : DB) (req : WatchTaskRequest) :
    req.includeInitial = true →
      (watchInitialEvents db req =
        watchInitialEvents db { req with statusFilter := [] }) ∧
      (∀ t ∈ fetchInitialTasks db req.taskIds,
        mkInitialEvent t ∈ watchInitialEvents db req) ∧
      (∀ t ∈ fetchInitialTasks db req.taskIds,
        drainPass req.statusFilter (mkInitialEvent t) = false →
          mkInitialEvent t ∈ watchInitialEvents db req) := by
  intro h
  refine ⟨?_, ?_, ?_⟩
  · simp [watchInitialEvents, h, fetchInitialTasks]
  · intro t ht
    simp only [watchInitialEvents, h, if_pos]
    exact List.mem_map_of_mem mkInitialEvent ht
  · intro t ht _
    simp only [watchInitialEvents, h, if_pos]
    exact List.mem_map_of_mem mkInitialEvent ht

/-- Witness for C10: the stored PENDING task's initial event is sent even
though the request's status_filter only admits SUCCEEDED. -/
theorem c10_initial_events_bypass_status_filter_witness :
    drainPass demoWatchReq.statusFilter
      (mkInitialEvent { newTask "t1" "" 2 "" [] [] 0 "sys" 0 with id := "a" }) = false ∧
    mkInitialEvent { newTask "t1" "" 2 "" [] [] 0 "sys" 0 with id := "a" } ∈
      watchInitialEvents demoWatchDB demoWatchReq :=
  ⟨by decide,
   (c10_initial_events_bypass_status_filter demoWatchDB demoWatchReq rfl).2.1
     { newTask "t1" "" 2 "" [] [] 0 "sys" 0 with id := "a" } (by decide)⟩

/-- Claim C1: isValidStatusTransition returns true for exactly the pairs
PENDING→RUNNING, PENDING→CANCELLED, RUNNING→SUCCEEDED, RUNNING→FAILED,
RUNNING→CANCELLED, RUNNING→TIMEOUT, and false for every other ordered pair;
in particular a task in a terminal status admits no outgoing transition. -/
theorem c1_transition_table :
    ∀ fromS toS : Int,
      (isValidStatusTransition fromS toS = true ↔
        ((fromS = statusPending ∧ toS = statusRunning) ∨
         (fromS = statusPending ∧ toS = statusCancelled) ∨
         (fromS = statusRunning ∧ toS = statusSucceeded) ∨
         (fromS = statusRunning ∧ toS = statusFailed) ∨
         (fromS = statusRunning ∧ toS = statusCancelled) ∨
         (fromS = statusRunning ∧ toS = statusTimeout))) ∧
      (∀ t : Task, t.isTerminal = true →
        isValidStatusTransition t.status toS = false) := by
  intro fromS toS
  constructor
  · simp only [isValidStatusTransition, statusPending, statusRunning, statusSucceeded,
      statusFailed, statusCancelled, statusTimeout]
    split_ifs with h1 h2 <;> (simp_all [beq_iff_eq]; try omega)
  · intro t ht
    simp only [Task.isTerminal, statusSucceeded, statusFailed, statusCancelled,
      statusTimeout, Bool.or_eq_true, beq_iff_eq] at ht
    simp only [isValidStatusTransition, statusPending, statusRunning, beq_iff_eq]
    split_ifs with h1 h2
    · omega
    · omega
    · rfl

/-- Witness for C1: the terminal-status component applied at SUCCEEDED→RUNNING
on a concrete task. -/
theorem c1_transition_table_witness :
    isValidStatusTransition (newTask "t" "" 2 "" [] [] 0 "" 0).status statusRunning = true ∧
    isValidStatusTransition
      { newTask "t" "" 2 "" [] [] 0 "" 0 with status := statusSucceeded }.status
      statusRunning = false := by
  refine ⟨by decide, ?_⟩
  exact (c1_transition_table statusSucceeded statusRunning).2
    { newTask "t" "" 2 "" [] [] 0 "" 0 with status := statusSucceeded } (by decide)

/-- Claim C2: UpdateStatusWithEvent is a single transaction.  If no row has
the given id with the expected current status it aborts with the
"not found or status mismatch" error and both tables are unchanged; if such
a row exists (ids are unique: `id` is the tasks table's primary key) the
task's status becomes `toS` with updated_at = now, every other row is kept,
and exactly one TaskEvent with from_status/to_status = fromS/toS is
appended; every failing run leaves both tables unchanged. -/
theorem c2_update_status_with_event (db : DB) (taskID : String) (fromS toS : Int)
    (operator message : String) (now : Nat) :
    ((∀ t ∈ db.tasks, ¬(t.id = taskID ∧ t.status = fromS)) →
      updateStatusWithEvent db taskID fromS toS operator message now =
        .error "task not found or status mismatch" ∧
      applyTx db (updateStatusWithEvent db taskID fromS toS operator message now) = db) ∧
    ((db.tasks.map Task.id).Nodup →
      ∀ t0 ∈ db.tasks, t0.id = taskID → t0.status = fromS →
      ∃ db2, updateStatusWithEvent db taskID fromS toS operator message now = .ok db2 ∧
        db2.taskEvents = db.taskEvents ++
          [{ id := taskID ++ "_" ++ toString now, taskId := taskID,
             fromStatus := fromS, toStatus := toS, message := message,
             timestamp := now, operator := operator }] ∧
        (∀ t ∈ db2.tasks, t.id = taskID → t.status = toS ∧ t.updatedAt = now) ∧
        (∀ t ∈ db.tasks, t.id ≠ taskID → t ∈ db2.tasks)) ∧
    (∀ e, updateStatusWithEvent db taskID fromS toS operator message now = .error e →
      applyTx db (updateStatusWithEvent db taskID fromS toS operator message now) = db) := by
  refine ⟨?_, ?_, ?_⟩
  · intro hnone
    have hfilter :
        db.tasks.filter (fun t => t.id == taskID && t.status == fromS) = [] := by
      rw [List.filter_eq_nil_iff]
      intro t ht
      have := hnone t ht
      simp only [Bool.and_eq_true, beq_iff_eq, Bool.not_eq_true]
      by_contra hcon
      exact this hcon
    rw [updateStatusWithEvent]
    simp [hfilter, applyTx]
  · intro hnodup t0 ht0 hid hstat
    have hmem :
        t0 ∈ db.tasks.filter (fun t => t.id == taskID && t.status == fromS) := by
      simp [List.mem_filter, ht0, hid, hstat]
    have hne :
        (db.tasks.filter (fun t => t.id == taskID && t.status == fromS)).length ≠ 0 := by
      intro h0
      rw [List.length_eq_zero] at h0
      rw [h0] at hmem
      exact absurd hmem (List.not_mem_nil t0)
    have hok : updateStatusWithEvent db taskID fromS toS operator message now =
        .ok { tasks := db.tasks.map (fun t =>
                (if t.id == taskID && t.status == fromS then
                  { t with status := toS, updatedAt := now } else t)),
              taskEvents := db.taskEvents ++
                [{ id := taskID ++ "_" ++ toString now, taskId := taskID,
                   fromStatus := fromS, toStatus := toS, message := message,
                   timestamp := now, operator := operator }] } := by
      simp only [updateStatusWithEvent]
      rw [if_neg hne]
    refine ⟨_, hok, rfl, ?_, ?_⟩
    · intro t ht htid
      simp only [List.mem_map] at ht
      obtain ⟨u, hu, hut⟩ := ht
      by_cases hc : (u.id == taskID && u.status == fromS) = true
      · rw [if_pos hc] at hut
        subst hut
        exact ⟨rfl, rfl⟩
      · rw [if_neg hc] at hut
        subst hut
        -- u has the target id but a mismatched status: impossible under Nodup
        have huid : u.id = t0.id := htid.trans hid.symm
        have : u = t0 := by
          exact List.inj_on_of_nodup_map hnodup hu ht0 huid
        subst this
        simp [htid, hstat] at hc
    · intro t ht htid
      simp only [List.mem_map]
      refine ⟨t, ht, ?_⟩
      have : (t.id == taskID && t.status == fromS) = false := by
        simp [htid]
      rw [this]
      simp
  · intro e herr
    simp [applyTx, herr]

/-- Witness for C2 at a concrete database: the mismatch branch aborts and
leaves the tables unchanged, evaluated on a one-task database. -/
theorem c2_update_status_with_event_witness :
    applyTx
      { tasks := [{ newTask "t1" "" 2 "" [] [] 0 "sys" 0 with id := "a" }], taskEvents := [] }
      (updateStatusWithEvent
        { tasks := [{ newTask "t1" "" 2 "" [] [] 0 "sys" 0 with id := "a" }], taskEvents := [] }
        "b" statusPending statusRunning "system" "status updated" 5) =
      { tasks := [{ newTask "t1" "" 2 "" [] [] 0 "sys" 0 with id := "a" }], taskEvents := [] } :=
  ((c2_update_status_with_event
      { tasks := [{ newTask "t1" "" 2 "" [] [] 0 "sys" 0 with id := "a" }], taskEvents := [] }
      "b" statusPending statusRunning "system" "status updated" 5).1
    (by decide)).2

/-- Counterexample to claim C5 at a concrete input: after CreateTask
("t1", id "a") the legal PENDING→RUNNING UpdateTask succeeds, yet both the
returned task and the stored row still have started_at unset. -/
theorem c5_counterexample :
    ((updateTask demoStateAfterCreate demoRunReq 1).1.toOption.map Task.status =
      some statusRunning) ∧
    ((updateTask demoStateAfterCreate demoRunReq 1).1.toOption.map Task.startedAt =
      some none) ∧
    ((findTask (updateTask demoStateAfterCreate demoRunReq 1).2.db "a").map
      Task.startedAt = some none) := by
  refine ⟨?_, ?_, ?_⟩
  · decide
  · decide
  · decide

/-- Helper: characterization of a successful status step of UpdateTask —
either no status change was requested, or the requested transition was
legal and went through UpdateStatusWithEvent, with the carried task being
the fetched one with only its status replaced. -/
theorem updateTaskStatusStep_ok (db : DB) (req : UpdateTaskRequest)
    (task0 : Task) (now : Nat) (task1 : Task) (db1 : DB) :
    updateTaskStatusStep db req task0 now = .ok (task1, db1) →
      (req.status = 0 ∧ task1 = task0 ∧ db1 = db) ∨
      (req.status ≠ 0 ∧ isValidStatusTransition task0.status req.status = true ∧
        task1 = { task0 with status := req.status } ∧
        updateStatusWithEvent db req.id task0.status req.status "system"
          "status updated" now = .ok db1) := by
  intro h
  unfold updateTaskStatusStep at h
  split_ifs at h with h1 h2
  · simp only [Except.ok.injEq, Prod.mk.injEq] at h
    exact Or.inl ⟨h1, h.1.symm, h.2.symm⟩
  · cases huswe : updateStatusWithEvent db req.id task0.status req.status
        "system" "status updated" now with
    | error e =>
      rw [huswe] at h
      simp at h
    | ok db2 =>
      rw [huswe] at h
      simp only [Except.ok.injEq, Prod.mk.injEq] at h
      exact Or.inr ⟨h1, h2, h.1.symm, by rw [h.2]⟩

/-- Claim C5 corrected: UpdateTask never touches started_at — the task it
returns carries the fetched row's started_at unchanged (so a PENDING task
without one stays without one after the transition to RUNNING); the
MarkRunning helper does set status RUNNING, started_at and updated_at, but
no handler invokes it. -/
theorem c5_update_task_leaves_started_at (s : ServerState)
    (req : UpdateTaskRequest) (now : Nat) :
    (∀ t : Task, (updateTask s req now).1.toOption = some t →
      (findTask s.db req.id).map Task.startedAt = some t.startedAt) ∧
    (∀ (tk : Task) (now2 : Nat),
      (tk.markRunning now2).startedAt = some now2 ∧
      (tk.markRunning now2).status = statusRunning ∧
      (tk.markRunning now2).updatedAt = now2) := by
  constructor
  · intro t hok
    by_cases hid : req.id = ""
    · simp [updateTask, hid, Except.toOption] at hok
    · cases hfind : findTask s.db req.id with
      | none => simp [updateTask, hid, hfind, Except.toOption] at hok
      | some task0 =>
        cases hstep : updateTaskStatusStep s.db req task0 now with
        | error e => simp [updateTask, hid, hfind, hstep, Except.toOption] at hok
        | ok pr =>
          obtain ⟨task1, db1⟩ := pr
          have h1 : task1.startedAt = task0.startedAt := by
            rcases updateTaskStatusStep_ok s.db req task0 now task1 db1 hstep with
              h | h
            · rw [h.2.1]
            · rw [h.2.2.1]
          simp only [updateTask, if_neg hid, hfind, hstep, Except.toOption,
            Option.some.injEq] at hok
          subst hok
          simp [hfind, h1, applyFieldUpdates]
  · intro tk now2
    exact ⟨rfl, rfl, rfl⟩

/-- Witness for C5 on the CreateTask-then-run scenario: the fetched row's
started_at (unset) equals the returned task's started_at. -/
theorem c5_update_task_leaves_started_at_witness :
    (findTask demoStateAfterCreate.db demoRunReq.id).map Task.startedAt =
      some { newTask "t1" "" 2 "" [] [] 0 "" 0 with
             id := "a", status := statusRunning, updatedAt := 1 }.startedAt :=
  (c5_update_task_leaves_started_at demoStateAfterCreate demoRunReq 1).1
    { newTask "t1" "" 2 "" [] [] 0 "" 0 with
      id := "a", status := statusRunning, updatedAt := 1 } (by decide)

/-- Counterexample to claim C6 at a concrete input: five equal-priority
tasks, page 1 of size 2.  The promised page (offset page*page_size = 2,
i.e. tasks 3 and 4) differs from what the code returns: the handler passes
offset 2 as the repository's page index and the repository multiplies by
page_size again, giving offset 4 and the single task 5. -/
theorem c6_counterexample :
    (listTasks demoPageDB demoPageReq).tasks = [mkDemoTask "5" 1] ∧
    listTasksSpecTasks demoPageDB demoPageReq =
      [mkDemoTask "3" 3, mkDemoTask "4" 2] ∧
    (listTasks demoPageDB demoPageReq).tasks ≠
      listTasksSpecTasks demoPageDB demoPageReq := by
  refine ⟨?_, ?_, ?_⟩
  · decide
  · decide
  · decide

/-- Claim C6 corrected: page_size requests outside [1, 100] fall back to the
default 20 (the normalized size always lies in [1, 100]) and the total is
the count of all rows matching the filter, but the returned page starts at
offset page * page_size * page_size (the handler pre-multiplies the offset
and ListByFilter multiplies its PageIndex by PageSize again), not at
page * page_size. -/
theorem c6_pagination_effective_offset (db : DB) (req : ListTasksRequest)
    (ps pg : Int)
    (hps : ps = if req.pageSize ≤ 0 ∨ req.pageSize > 100 then 20 else req.pageSize)
    (hpg : pg = if req.page < 0 then 0 else req.page) :
    (listTasks db req).tasks =
      ((sortTasks (db.tasks.filter (matchesFilter (buildFilter req ps (pg * ps))))).drop
        (pg * ps * ps).toNat).take ps.toNat ∧
    (listTasks db req).total =
      ((db.tasks.filter (matchesFilter (buildFilter req ps (pg * ps)))).length : Int) ∧
    1 ≤ ps ∧ ps ≤ 100 ∧
    (listTasks db req).page = req.page ∧
    (listTasks db req).pageSize = req.pageSize := by
  have hps1 : 1 ≤ ps ∧ ps ≤ 100 := by
    rw [hps]
    split_ifs with h
    · omega
    · push_neg at h
      omega
  have hpg0 : 0 ≤ pg := by
    rw [hpg]
    split_ifs with h <;> omega
  have hoff0 : 0 ≤ pg * ps := mul_nonneg hpg0 (by omega)
  refine ⟨?_, ?_, hps1.1, hps1.2, rfl, rfl⟩
  · simp only [listTasks, listByFilter, buildFilter, ← hps, ← hpg]
    rw [if_neg (by omega : ¬ ps ≤ 0), if_neg (by omega : ¬ pg * ps < 0)]
  · simp only [listTasks, listByFilter, buildFilter, ← hps, ← hpg]

/-- Witness for C6 at the concrete five-task scenario: normalized size 2,
page index 1, effective offset 4. -/
theorem c6_pagination_effective_offset_witness :
    (listTasks demoPageDB demoPageReq).tasks =
      ((sortTasks (demoPageDB.tasks.filter
        (matchesFilter (buildFilter demoPageReq 2 (1 * 2))))).drop
        ((1 : Int) * 2 * 2).toNat).take (2 : Int).toNat :=
  (c6_pagination_effective_offset demoPageDB demoPageReq 2 1
    (by decide) (by decide)).1

/-- Helper: appending a legal transition out of the chain's current status
extends the chain to the transition's target. -/
theorem eventChain_append (e : TaskEvent) :
    ∀ (evs : List TaskEvent) (s c : Int),
      eventChain s evs c = true → e.fromStatus = c →
      isValidStatusTransition e.fromStatus e.toStatus = true →
      eventChain s (evs ++ [e]) e.toStatus = true := by
  intro evs
  induction evs with
  | nil =>
    intro s c h1 h2 h3
    simp only [eventChain, beq_iff_eq] at h1
    subst h1
    simp only [List.nil_append, eventChain, Bool.and_eq_true, beq_iff_eq]
    exact ⟨⟨h2, h3⟩, trivial⟩
  | cons e1 rest ih =>
    intro s c h1 h2 h3
    simp only [eventChain, Bool.and_eq_true] at h1
    obtain ⟨⟨ha, hb⟩, hc⟩ := h1
    simp only [List.cons_append, eventChain, Bool.and_eq_true]
    exact ⟨⟨ha, hb⟩, ih e1.toStatus c hc h2 h3⟩

/-- Helper: a chained log only records legal transitions. -/
theorem eventChain_all_valid :
    ∀ (evs : List TaskEvent) (s c : Int),
      eventChain s evs c = true → pairwiseValid evs = true := by
  intro evs
  induction evs with
  | nil => intro s c _; rfl
  | cons e rest ih =>
    intro s c h
    simp only [eventChain, Bool.and_eq_true] at h
    have hrest := ih e.toStatus c h.2
    simp only [pairwiseValid, List.all_cons, Bool.and_eq_true]
    exact ⟨h.1.2, by simpa [pairwiseValid] using hrest⟩

/-- Helper: in a chained log each event's from_status is the previous
event's to_status. -/
theorem eventChain_chained :
    ∀ (evs : List TaskEvent) (s c : Int),
      eventChain s evs c = true → chained evs = true := by
  intro evs
  induction evs with
  | nil => intro s c _; rfl
  | cons e rest ih =>
    intro s c h
    simp only [eventChain, Bool.and_eq_true] at h
    cases rest with
    | nil => rfl
    | cons e2 rest2 =>
      have h2 := h.2
      simp only [eventChain, Bool.and_eq_true] at h2
      simp only [chained, Bool.and_eq_true]
      exact ⟨h2.1.1, ih e.toStatus c h.2⟩

/-- Helper: the shape of a successful UpdateStatusWithEvent — the matching
rows get the new status, and exactly the one new event is appended. -/
theorem uswe_ok_shape (db : DB) (taskID : String) (fromS toS : Int)
    (operator message : String) (now : Nat) (db2 : DB) :
    updateStatusWithEvent db taskID fromS toS operator message now = .ok db2 →
      db2.tasks = db.tasks.map (fun t =>
        (if t.id == taskID && t.status == fromS then
          { t with status := toS, updatedAt := now } else t)) ∧
      db2.taskEvents = db.taskEvents ++
        [{ id := taskID ++ "_" ++ toString now, taskId := taskID,
           fromStatus := fromS, toStatus := toS, message := message,
           timestamp := now, operator := operator }] := by
  intro h
  simp only [updateStatusWithEvent] at h
  split_ifs at h with h0
  simp only [Except.ok.injEq] at h
  rw [← h]
  exact ⟨rfl, rfl⟩

/-- Helper: events only live in the taskEvents table, which a full-row
Update does not touch. -/
theorem eventsOf_repoUpdate (db : DB) (tNew : Task) (y : String) :
    eventsOf (repoUpdate db tNew) y = eventsOf db y := rfl

/-- Helper: replacing a stored row by one with the same id and status
preserves the database invariant. -/
theorem dbInv_repoUpdate (db : DB) (tOld tNew : Task)
    (hinv : DBInv db) (hmem : tOld ∈ db.tasks)
    (hid : tNew.id = tOld.id) (hstatus : tNew.status = tOld.status) :
    DBInv (repoUpdate db tNew) := by
  obtain ⟨hnodup, hevt, hchain⟩ := hinv
  have hids : (db.tasks.map (fun u => if u.id == tNew.id then tNew else u)).map
      Task.id = db.tasks.map Task.id := by
    rw [List.map_map]
    apply List.map_congr_left
    intro u _
    simp only [Function.comp_apply]
    split_ifs with hc
    · exact (beq_iff_eq.mp hc).symm
    · rfl
  refine ⟨?_, ?_, ?_⟩
  · simp only [repoUpdate]
    rw [hids]
    exact hnodup
  · intro e he
    obtain ⟨t', ht', hteq⟩ := hevt e he
    refine ⟨(if t'.id == tNew.id then tNew else t'), ?_, ?_⟩
    · simp only [repoUpdate]
      exact List.mem_map_of_mem _ ht'
    · split_ifs with hc
      · exact (beq_iff_eq.mp hc).symm.trans hteq
      · exact hteq
  · intro u hu
    simp only [repoUpdate, List.mem_map] at hu
    obtain ⟨u0, hu0, rfl⟩ := hu
    rw [eventsOf_repoUpdate]
    split_ifs with hc
    · have hu0eq : u0 = tOld :=
        List.inj_on_of_nodup_map hnodup hu0 hmem ((beq_iff_eq.mp hc).trans hid)
      subst hu0eq
      rw [hid, hstatus]
      exact hchain u0 hu0
    · exact hchain u0 hu0

/-- Helper: a successful compare-and-set with a legal transition preserves
the database invariant (the matched task's chain is extended by the new
event, every other task is untouched). -/
theorem dbInv_uswe (db : DB) (task0 : Task) (toS : Int)
    (operator message : String) (now : Nat) (db2 : DB)
    (hinv : DBInv db) (hmem : task0 ∈ db.tasks)
    (hval : isValidStatusTransition task0.status toS = true)
    (h : updateStatusWithEvent db task0.id task0.status toS operator message now
      = .ok db2) :
    DBInv db2 := by
  obtain ⟨hnodup, hevt, hchain⟩ := hinv
  obtain ⟨htasks, hevents⟩ :=
    uswe_ok_shape db task0.id task0.status toS operator message now db2 h
  have hids : db2.tasks.map Task.id = db.tasks.map Task.id := by
    rw [htasks, List.map_map]
    apply List.map_congr_left
    intro u _
    simp only [Function.comp_apply]
    split_ifs with hc
    · rfl
    · rfl
  have hev2 : ∀ y : String, eventsOf db2 y =
      eventsOf db y ++ List.filter (fun ev2 : TaskEvent => ev2.taskId == y)
        ([{ id := task0.id ++ "_" ++ toString now, taskId := task0.id,
            fromStatus := task0.status, toStatus := toS, message := message,
            timestamp := now, operator := operator }] : List TaskEvent) := by
    intro y
    simp only [eventsOf, hevents, List.filter_append]
  refine ⟨?_, ?_, ?_⟩
  · rw [hids]
    exact hnodup
  · intro e he
    rw [hevents] at he
    rcases List.mem_append.mp he with he | he
    · obtain ⟨t', ht', hteq⟩ := hevt e he
      refine ⟨(if t'.id == task0.id && t'.status == task0.status then
          { t' with status := toS, updatedAt := now } else t'), ?_, ?_⟩
      · rw [htasks]
        exact List.mem_map_of_mem _ ht'
      · split_ifs with hc
        · exact hteq
        · exact hteq
    · simp only [List.mem_singleton] at he
      subst he
      refine ⟨(if task0.id == task0.id && task0.status == task0.status then
          { task0 with status := toS, updatedAt := now } else task0), ?_, ?_⟩
      · rw [htasks]
        exact List.mem_map_of_mem _ hmem
      · split_ifs with hc
        · rfl
        · rfl
  · intro u hu
    rw [htasks] at hu
    simp only [List.mem_map] at hu
    obtain ⟨u0, hu0, rfl⟩ := hu
    split_ifs with hc
    · have hcid : u0.id = task0.id := by
        simp only [Bool.and_eq_true, beq_iff_eq] at hc
        exact hc.1
      have hu0eq : u0 = task0 :=
        List.inj_on_of_nodup_map hnodup hu0 hmem hcid
      subst hu0eq
      rw [hev2]
      have hfil : List.filter (fun ev2 : TaskEvent => ev2.taskId == u0.id)
          ([{ id := u0.id ++ "_" ++ toString now, taskId := u0.id,
              fromStatus := u0.status, toStatus := toS, message := message,
              timestamp := now, operator := operator }] : List TaskEvent) =
          [{ id := u0.id ++ "_" ++ toString now, taskId := u0.id,
             fromStatus := u0.status, toStatus := toS, message := message,
             timestamp := now, operator := operator }] := by
        simp
      rw [hfil]
      exact eventChain_append _ _ _ _ (hchain u0 hu0) rfl hval
    · have hneq : u0.id ≠ task0.id := by
        intro hcc
        have hu0eq : u0 = task0 := List.inj_on_of_nodup_map hnodup hu0 hmem hcc
        subst hu0eq
        simp at hc
      rw [hev2]
      have hbeq : (task0.id == u0.id) = false := by
        rw [beq_eq_false_iff_ne]
        exact fun hh => hneq hh.symm
      have hfil0 : List.filter (fun ev2 : TaskEvent => ev2.taskId == u0.id)
          ([{ id := task0.id ++ "_" ++ toString now, taskId := task0.id,
              fromStatus := task0.status, toStatus := toS, message := message,
              timestamp := now, operator := operator }] : List TaskEvent) = [] := by
        simp only [List.filter, hbeq]
      rw [hfil0, List.append_nil]
      exact hchain u0 hu0

/-- Helper: a CreateTask call preserves the database invariant — the new
task starts at PENDING with an empty event log. -/
theorem dbInv_createTask (s : ServerState) (req : CreateTaskRequest)
    (newId : String) (now : Nat) (hinv : DBInv s.db) :
    DBInv (createTask s req newId now).2.db := by
  by_cases hname : req.name = ""
  · simpa [createTask, hname] using hinv
  · cases hcr : repoCreate s.db (createdTask req newId now) with
    | error e => simpa [createTask, hname, hcr] using hinv
    | ok db2 =>
      have hgoal : (createTask s req newId now).2.db = db2 := by
        simp [createTask, hname, hcr]
      rw [hgoal]
      have hany : (s.db.tasks.any
          (fun u => u.id == (createdTask req newId now).id)) = false := by
        cases hx : s.db.tasks.any (fun u => u.id == (createdTask req newId now).id) with
        | false => rfl
        | true =>
          rw [repoCreate, if_pos hx] at hcr
          cases hcr
      have hdb2 : db2 =
          { s.db with tasks := s.db.tasks ++ [createdTask req newId now] } := by
        rw [repoCreate, if_neg (by simp [hany])] at hcr
        cases hcr
        rfl
      have hfresh : ∀ u ∈ s.db.tasks, u.id ≠ (createdTask req newId now).id := by
        intro u hu
        have := List.any_eq_false.mp hany u hu
        simpa using this
      obtain ⟨hnodup, hevt, hchain⟩ := hinv
      rw [hdb2]
      refine ⟨?_, ?_, ?_⟩
      · simp only [List.map_append]
        rw [List.nodup_append]
        refine ⟨hnodup, by simp, ?_⟩
        intro a ha hb
        simp only [List.map_cons, List.map_nil, List.mem_singleton] at hb
        simp only [List.mem_map] at ha
        obtain ⟨u, hu, rfl⟩ := ha
        exact hfresh u hu hb
      · intro e he
        obtain ⟨t', ht', hteq⟩ := hevt e he
        exact ⟨t', List.mem_append_left _ ht', hteq⟩
      · intro u hu
        rcases List.mem_append.mp hu with hu | hu
        · exact hchain u hu
        · simp only [List.mem_singleton] at hu
          subst hu
          have hnil : eventsOf
              { s.db with tasks := s.db.tasks ++ [createdTask req newId now] }
              (createdTask req newId now).id = [] := by
            rw [eventsOf, List.filter_eq_nil_iff]
            intro e he
            obtain ⟨t', ht', hteq⟩ := hevt e he
            simp only [Bool.not_eq_true, beq_eq_false_iff_ne, ne_eq]
            intro hcc
            exact hfresh t' ht' (hteq.trans hcc)
          rw [hnil]
          rfl

/-- Helper: an UpdateTask call preserves the database invariant. -/
theorem dbInv_updateTask (s : ServerState) (req : UpdateTaskRequest) (now : Nat)
    (hinv : DBInv s.db) : DBInv (updateTask s req now).2.db := by
  by_cases hid : req.id = ""
  · simpa [updateTask, hid] using hinv
  · cases hfind : findTask s.db req.id with
    | none => simpa [updateTask, hid, hfind] using hinv
    | some task0 =>
      have hfind2 : s.db.tasks.find? (fun t => t.id == req.id) = some task0 := hfind
      have hmem : task0 ∈ s.db.tasks := List.mem_of_find?_eq_some hfind2
      have hp := List.find?_some hfind2
      have hidq : task0.id = req.id := by simpa using hp
      cases hstep : updateTaskStatusStep s.db req task0 now with
      | error e => simpa [updateTask, hid, hfind, hstep] using hinv
      | ok pr =>
        obtain ⟨task1, db1⟩ := pr
        have hgoal : (updateTask s req now).2.db =
            repoUpdate db1 (applyFieldUpdates req task1 now) := by
          simp [updateTask, hid, hfind, hstep]
        rw [hgoal]
        rcases updateTaskStatusStep_ok s.db req task0 now task1 db1 hstep with
          ⟨_, h1t, h1d⟩ | ⟨_, hval, h1t, huswe⟩
        · subst h1t
          subst h1d
          exact dbInv_repoUpdate s.db task1 (applyFieldUpdates req task1 now)
            hinv hmem rfl rfl
        · subst h1t
          rw [← hidq] at huswe
          have hinv1 : DBInv db1 :=
            dbInv_uswe s.db task0 req.status "system" "status updated" now db1
              hinv hmem hval huswe
          obtain ⟨htasks, _⟩ :=
            uswe_ok_shape s.db task0.id task0.status req.status "system"
              "status updated" now db1 huswe
          have hcond : (task0.id == task0.id && task0.status == task0.status) = true := by
            simp
          have hmem1 : ({ task0 with status := req.status, updatedAt := now } : Task)
              ∈ db1.tasks := by
            rw [htasks]
            exact List.mem_map.mpr ⟨task0, hmem, if_pos hcond⟩
          exact dbInv_repoUpdate db1 { task0 with status := req.status, updatedAt := now }
            (applyFieldUpdates req { task0 with status := req.status } now)
            hinv1 hmem1 rfl rfl

/-- Helper: every reachable server state satisfies the database
invariant. -/
theorem dbInv_reachable (st : ServerState) (h : Reachable st) : DBInv st.db := by
  induction h with
  | init => exact ⟨by simp, by simp, by simp⟩
  | @step s1 s2 _ hs ih =>
    cases hs with
    | create req newId now => exact dbInv_createTask _ req newId now ih
    | update req now => exact dbInv_updateTask _ req now ih

/-- Claim C4: in every server state reachable by CreateTask and UpdateTask
sequences, each stored task's event log chains from PENDING to the task's
current status — every event's from_status is the status immediately before
the transition, every logged transition satisfies is_valid_transition, and
consecutive events agree. -/
theorem c4_event_log_invariant (st : ServerState) (h : Reachable st) :
    LogInvariant st := by
  have hinv := dbInv_reachable st h
  intro t ht
  have hc := hinv.2.2 t ht
  exact ⟨hc, eventChain_all_valid _ _ _ hc, eventChain_chained _ _ _ hc⟩

/-- Witness for C4: the invariant holds at the concrete reachable state
obtained by CreateTask then a PENDING→RUNNING UpdateTask. -/
theorem c4_event_log_invariant_witness : LogInvariant demoStateAfterRun :=
  c4_event_log_invariant demoStateAfterRun
    (Reachable.step
      (Reachable.step Reachable.init
        (Step.create demoCreateReq "a" 0 emptyServerState))
      (Step.update demoRunReq 1 demoStateAfterCreate))

end TaskFlow
